import Mathlib

/-!
# ACtool: the deferred shutdown timer and the interactive command loop

A shallow embedding of `main.go`.  The global timer variables, the expiry
check at the top of every iteration of `runInteractiveMode`, the command
switch of the loop, the start-up argument handling of `main` and the snapshot
mutation of `operateDevice` are translated function by function.

Modelling decisions.

* An instant (`time.Time`) is an integer number of nanoseconds since the Unix
  epoch; wall clock and monotonic clock are one time line.
* A `time.Duration` is a Go `int64`.  The product
  `time.Duration(minutes) * time.Minute` wraps modulo `2^64`; `Time.Sub`
  saturates at the smallest and largest `int64`.
* `now.Location()` is `time.Local`, a `Location` given by its transitions:
  the offset from UTC can change (daylight saving), and `time.Date` resolves
  a wall-clock time through `Location.lookup` as the Go library does.
* The network is an input: every call of `getDeviceInfo` and every POST of
  `operateDevice` reads its outcome from the environment `Env` of the step,
  and every call is recorded in the list `calls` of the state.
* Console output is not modelled, except the timer status line of
  `printDeviceInfo`, which is returned as a value; its `float64` arithmetic is
  computed exactly.
* The loop receives each input line already trimmed, lower-cased and split
  (`strings.Fields(strings.ToLower(input))`).
-/

namespace Actool

/-! ## Go integers, instants and durations -/

/-! An instant is an `Int`, the nanoseconds since the Unix epoch; a
`time.Duration` is an `Int` in the range of `int64`, in nanoseconds. -/

/-- Smallest `int64`. -/
def minInt64 : Int := -9223372036854775808

/-- Largest `int64`. -/
def maxInt64 : Int := 9223372036854775807

/-- Two's complement wrap-around of a mathematical integer into `int64`. -/
def wrapInt64 (x : Int) : Int :=
  (x + 9223372036854775808) % 18446744073709551616 - 9223372036854775808

/-- Go `time.Second`. -/
def Second : Int := 1000000000

/-- Go `time.Minute`. -/
def Minute : Int := 60 * Second

/-- Go `time.Hour`. -/
def Hour : Int := 60 * Minute

/-- Go `Time.Add` on the integer time line. -/
def timeAdd (t : Int) (d : Int) : Int := t + d

/-- Go `Time.Sub`: the difference, saturated to the range of `int64`. -/
def timeSub (t u : Int) : Int :=
  if t - u < minInt64 then minInt64
  else if maxInt64 < t - u then maxInt64
  else t - u

/-- Go `Time.Before`. -/
def timeBefore (t u : Int) : Bool := decide (t < u)

/-- What Go `Location.lookup` returns for an instant: the offset from UTC in
seconds that is in use, and the span of Unix seconds, `start` included and
`stop` excluded, over which it is in use. -/
structure ZoneSpan where
  offset : Int
  start : Int
  stop : Int
  deriving DecidableEq, Repr

/-- A Go `*time.Location`, reduced to what `lookup` reads from it: the offset
in use before the first transition, and the transitions in ascending order,
each the Unix second at which it happens and the offset in use from then
on. -/
structure Location where
  firstOffset : Int
  tx : List (Int × Int)
  deriving DecidableEq, Repr

/-- The search of `Location.lookup` through the transitions that are left,
`offset` being in use since `start`. -/
def lookupFrom (sec : Int) (offset start : Int) : List (Int × Int) → ZoneSpan
  | [] => { offset := offset, start := start, stop := maxInt64 }
  | (w, o) :: rest =>
    if sec < w then { offset := offset, start := start, stop := w }
    else lookupFrom sec o w rest

/-- Go `Location.lookup`: the span that contains the Unix second `sec`; the
first span starts at the smallest and the last one stops at the largest
`int64`. -/
def Location.lookup (l : Location) (sec : Int) : ZoneSpan :=
  lookupFrom sec l.firstOffset minInt64 l.tx

/-- Go `time.FixedZone`: a location without transitions. -/
def fixedZone (offset : Int) : Location := { firstOffset := offset, tx := [] }

/-- Go `time.Date(now.Year(), now.Month(), now.Day(), hour, min, 0, 0,
now.Location())`. The date of `now` is read from its local seconds, the Unix
second plus the offset in use at `now`. `Date` then takes the wall-clock time
as if it were UTC (`unix`), looks the offset up there, and looks it up again
at `unix - offset` when that instant falls outside the span found. -/
def dateToday (loc : Location) (now : Int) (hour min : Nat) : Int :=
  let nowSec := now / Second
  let localSec := nowSec + (loc.lookup nowSec).offset
  let midnight := localSec - localSec % 86400
  let unix := midnight + (hour : Int) * 3600 + (min : Int) * 60
  let z := loc.lookup unix
  let offset :=
    if z.offset ≠ 0 ∧ (unix - z.offset < z.start ∨ z.stop ≤ unix - z.offset) then
      (loc.lookup (unix - z.offset)).offset
    else z.offset
  (unix - offset) * Second

/-- The zero `time.Time` (January 1, year 1, 00:00 UTC) in Unix nanoseconds. -/
def zeroTime : Int := -62135596800 * Second

/-! ## Argument parsing (`strconv.Atoi`, `time.Parse("15:04", _)`) -/

/-- An ASCII decimal digit, as tested by `ch -= 48; ch > 9` in `strconv`. -/
def isDigit (c : Char) : Bool := decide (48 ≤ c.toNat ∧ c.toNat ≤ 57)

/-- Value of a run of decimal digits, most significant first. -/
def digitsValue (cs : List Char) : Nat :=
  cs.foldl (fun n c => n * 10 + (c.toNat - 48)) 0

/-- Go `strconv.Atoi` on a 64-bit platform: an optional sign, then one or
more ASCII digits, and the value must fit `int64`; `none` is the error
return. -/
def Atoi (s : String) : Option Int :=
  let cs := s.toList
  let neg : Bool := match cs with
    | c :: _ => c == '-'
    | [] => false
  let ds : List Char := match cs with
    | c :: r => if c == '-' || c == '+' then r else cs
    | [] => []
  if ds.isEmpty then none
  else if ds.all isDigit then
    let v : Int := if neg then -((digitsValue ds : Nat) : Int) else ((digitsValue ds : Nat) : Int)
    if minInt64 ≤ v ∧ v ≤ maxInt64 then some v else none
  else none

/-- Go `getnum` of package `time`: one or two leading digits (exactly two
when `fixed`), returning the number and the rest of the text. -/
def getnum (cs : List Char) (fixed : Bool) : Option (Nat × List Char) :=
  match cs with
  | [] => none
  | c0 :: r0 =>
    if !isDigit c0 then none
    else
      match r0 with
      | c1 :: r1 =>
        if isDigit c1 then some ((c0.toNat - 48) * 10 + (c1.toNat - 48), r1)
        else if fixed then none else some (c0.toNat - 48, r0)
      | [] => if fixed then none else some (c0.toNat - 48, r0)

/-- Go `time.Parse("15:04", s)`, reduced to what the program reads from the
result, `Hour()` and `Minute()`: an hour of one or two digits below 24, a
colon, a minute of two digits below 60, and nothing after it. -/
def parseClock (s : String) : Option (Nat × Nat) :=
  match getnum s.toList false with
  | none => none
  | some (hour, rest) =>
    if 24 ≤ hour then none
    else
      match rest with
      | c :: rest2 =>
        if c == ':' then
          match getnum rest2 true with
          | none => none
          | some (min, rest3) =>
            if 60 ≤ min then none
            else if rest3.isEmpty then some (hour, min) else none
        else none
      | [] => none

/-! ## The global timer variables -/

/-- The package-level variables `timerActive`, `timerEndTime`,
`timerDuration`, `timerDescription` (`lastStatusTime` is never read or
written by the program). -/
structure TimerVars where
  timerActive : Bool
  timerEndTime : Int
  timerDuration : Int
  timerDescription : String
  deriving DecidableEq, Repr

/-- Values of the timer variables at program start. -/
def initialTimer : TimerVars :=
  { timerActive := false, timerEndTime := zeroTime, timerDuration := 0,
    timerDescription := "" }

/-! ## The device snapshot -/

/-- A Go `float64` of the JSON payload, kept as its bit pattern; the program
never computes with these fields. -/
abbrev Float64 := Nat

/-- A Go `interface{}` JSON value, kept as its raw JSON text. -/
abbrev JsonValue := String

/-- The struct `DeviceFan`. -/
structure DeviceFan where
  ID : String
  DeviceID : String
  FanType : Int
  Password : String
  FanStatus : Int
  LockStatus : Int
  TempSetting : Float64
  FanModel : Int
  WindSpeed : Int
  MaxTemp : Float64
  MinTemp : Float64
  CompensateTemp : Float64
  CompensateFalg : Int
  ReturnTemp : Float64
  CurrentTemp : Float64
  FanStatusOld : Int
  deriving DecidableEq, Repr

/-- The struct `DeviceInfo`; the pointer field `DeviceFan` is an `Option`,
`none` being `nil`. -/
structure DeviceInfo where
  ID : String
  ManufactorID : String
  ModelID : String
  GatewayID : String
  PortID : String
  CampusID : String
  BuildingID : String
  FloorID : String
  RoomID : String
  DeviceType : Int
  DeviceNo : String
  DeviceIdx : Int
  Status : Int
  StatusReason : String
  Creator : String
  CreateDate : String
  CampusTitle : String
  BuildingTitle : String
  FloorTitle : String
  RoomNo : String
  ManufactorTitle : String
  ModelTitle : String
  GatewayNo : String
  SNCode : String
  PortIdx : Int
  DeviceFan : Option DeviceFan
  DeviceMeter : JsonValue
  DeviceWater : JsonValue
  IsInstallFinish : Int
  Position : JsonValue
  CommandKey : String
  LastCommunication : String
  ProcessResult : JsonValue
  ProcessMsg : JsonValue
  CollectorNo : String
  Forbidden : Int
  Balance : Float64
  NickNames : String
  UpdateDate : String
  MeterUsePower : JsonValue
  DeviceGroup : JsonValue
  StudentName : String
  deriving DecidableEq, Repr

/-! ## Network calls and the state of the program -/

/-- A call to the remote service: the GET of `getDeviceInfo`, or the POST of
`operateDevice` together with the payload that is sent. -/
inductive Event where
  | fetch : Event
  | submit : DeviceInfo → Event
  deriving DecidableEq, Repr

/-- What the outside world answers during one step: the value of
`time.Now()`, the local time zone `time.Local`, the result of
`getDeviceInfo` (`none` when it returns an error) and whether the POST of
`operateDevice` comes back without error. -/
structure Env where
  now : Int
  location : Location
  fetch : Option DeviceInfo
  postOk : Bool
  deriving Repr

/-- The variables a command can change: the global timer, the local
`deviceInfo` pointer of `runInteractiveMode`, and the network calls made so
far, oldest first. -/
structure State where
  timer : TimerVars
  deviceInfo : Option DeviceInfo
  calls : List Event
  deriving DecidableEq, Repr

/-- State at program start. -/
def initialState : State :=
  { timer := initialTimer, deviceInfo := none, calls := [] }

/-- The snapshot mutation at the head of `operateDevice`: command marker,
fan power flag when the fan record is present, operator name; `none` is the
error return for an action that is neither on nor off. -/
def mutateSnapshot (deviceInfo : DeviceInfo) (action studentName : String) :
    Option DeviceInfo :=
  if action = "start" ∨ action = "acon" then
    some { deviceInfo with
      CommandKey := "AirOpen"
      DeviceFan := deviceInfo.DeviceFan.map (fun fan => { fan with FanStatus := 1 })
      StudentName := studentName }
  else if action = "stop" ∨ action = "acoff" then
    some { deviceInfo with
      CommandKey := "AirClose"
      DeviceFan := deviceInfo.DeviceFan.map (fun fan => { fan with FanStatus := 0 })
      StudentName := studentName }
  else none

/-- Result of `operateDevice`: the snapshot as the caller sees it after the
call, the network calls made, and whether the returned error is nil. -/
structure OperateResult where
  deviceInfo : DeviceInfo
  calls : List Event
  ok : Bool
  deriving DecidableEq, Repr

/-- The function `operateDevice`: mutate the snapshot in place, POST it, and
report the outcome `postOk` of the request. An invalid action returns an error
before anything is sent. -/
def operateDevice (deviceInfo : DeviceInfo) (action studentName : String)
    (postOk : Bool) : OperateResult :=
  match mutateSnapshot deviceInfo action studentName with
  | none => { deviceInfo := deviceInfo, calls := [], ok := false }
  | some d => { deviceInfo := d, calls := [Event.submit d], ok := postOk }

/-- The assignment `deviceInfo, statusCode, err = getDeviceInfo(deviceNo,
token)`: one GET, whose result replaces the local `deviceInfo`. -/
def getDeviceInfo (e : Env) (s : State) : State :=
  { s with deviceInfo := e.fetch, calls := s.calls ++ [Event.fetch] }

/-- The statement `operateDevice(deviceInfo, token, action, studentName)` in
a state whose `deviceInfo` is the snapshot `d` just fetched. -/
def submitAction (studentName : String) (e : Env) (action : String)
    (d : DeviceInfo) (s : State) : State × Bool :=
  let r := operateDevice d action studentName e.postOk
  ({ s with deviceInfo := some r.deviceInfo, calls := s.calls ++ r.calls }, r.ok)

/-! ## The interactive loop (`runInteractiveMode`) -/

/-- The timer block at the top of each loop iteration: when the timer is
active and `timerEndTime.Sub(time.Now()) <= 0`, fetch the snapshot again,
submit the off-command if the fetch succeeded, and clear `timerActive`. -/
def expiryCheck (studentName : String) (e : Env) (s : State) : State :=
  if s.timer.timerActive then
    let remaining := timeSub s.timer.timerEndTime e.now
    if remaining ≤ 0 then
      let s1 := getDeviceInfo e s
      let s2 := match e.fetch with
        | none => s1
        | some d => (submitAction studentName e "acoff" d s1).1
      { s2 with timer := { s2.timer with timerActive := false } }
    else s
  else s

/-- The `case "/status"` of the command switch. -/
def cmdStatus (e : Env) (s : State) : State :=
  getDeviceInfo e s

/-- The minutes of `case "/acon"`: zero without an argument, the value of
`strconv.Atoi(args[0])` otherwise, and `none` when the switch is left because
of a parse error or a value that is not positive. -/
def aconMinutes (args : List String) : Option Int :=
  match args with
  | [] => some 0
  | minutesStr :: _ =>
    match Atoi minutesStr with
    | none => none
    | some minutes => if minutes ≤ 0 then none else some minutes

/-- The `case "/acon"` of the command switch. -/
def cmdAcon (studentName : String) (e : Env) (args : List String) (s : State) : State :=
  match aconMinutes args with
  | none => s
  | some minutes =>
    let s1 := getDeviceInfo e s
    match e.fetch with
    | none => s1
    | some d =>
      let r := submitAction studentName e "acon" d s1
      if r.2 then
        if minutes > 0 then
          { r.1 with timer :=
            { timerActive := true
              timerEndTime := timeAdd e.now (wrapInt64 (minutes * Minute))
              timerDuration := wrapInt64 (minutes * Minute)
              timerDescription := toString minutes ++ "分鐘" } }
        else
          { r.1 with timer := { r.1.timer with timerActive := false } }
      else r.1

/-- The `case "/acoff"` of the command switch. -/
def cmdAcoff (studentName : String) (e : Env) (s : State) : State :=
  let s1 := getDeviceInfo e s
  match e.fetch with
  | none => s1
  | some d =>
    let r := submitAction studentName e "acoff" d s1
    if r.2 then { r.1 with timer := { r.1.timer with timerActive := false } }
    else r.1

/-- The target of a schedule command: today at `hour:min:00`, moved on by 24
hours when that instant is before `now` (the same four lines in
`case "/timer"` and in the `--timer` branch of `main`). -/
def targetDateTime (loc : Location) (now : Int) (hour min : Nat) : Int :=
  let t := dateToday loc now hour min
  if timeBefore t now then timeAdd t (24 * Hour) else t

/-- The `case "/timer"` of the command switch. -/
def cmdTimer (studentName : String) (e : Env) (args : List String) (s : State) : State :=
  match args with
  | [] => s
  | timeStr :: _ =>
    match parseClock timeStr with
    | none => s
    | some (hour, min) =>
      let target := targetDateTime e.location e.now hour min
      let s1 := getDeviceInfo e s
      match e.fetch with
      | none => s1
      | some d =>
        let r := submitAction studentName e "acon" d s1
        if r.2 then
          { r.1 with timer :=
            { timerActive := true
              timerEndTime := target
              timerDuration := timeSub target e.now
              timerDescription := "指定時間 " ++ timeStr } }
        else r.1

/-- The command switch of the loop on the split input line; the flag is
false when the loop is left (`/exit`, `/quit`) and true when it goes on. -/
def dispatch (studentName : String) (e : Env) (commandParts : List String)
    (s : State) : State × Bool :=
  match commandParts with
  | [] => (s, true)
  | command :: args =>
    if command = "/status" then (cmdStatus e s, true)
    else if command = "/acon" then (cmdAcon studentName e args s, true)
    else if command = "/acoff" then (cmdAcoff studentName e s, true)
    else if command = "/timer" then (cmdTimer studentName e args s, true)
    else if command = "/help" then (s, true)
    else if command = "/exit" ∨ command = "/quit" then (s, false)
    else (s, true)

/-- One iteration of the loop: what the expiry check sees, the split input
line, and what the command sees. -/
structure Cycle where
  check : Env
  commandParts : List String
  cmd : Env
  deriving Repr

/-- One iteration of the `for` loop: expiry check, then the command. -/
def cycle (studentName : String) (c : Cycle) (s : State) : State × Bool :=
  dispatch studentName c.cmd c.commandParts (expiryCheck studentName c.check s)

/-- The `for` loop over the given iterations; it stops at the first exit
command, and the flag tells whether the loop is still running afterwards. -/
def runLoop (studentName : String) : List Cycle → State → State × Bool
  | [], s => (s, true)
  | c :: cs, s =>
    let r := cycle studentName c s
    if r.2 then runLoop studentName cs r.1 else r

/-- The function `runInteractiveMode`: the initial fetch, then the loop. -/
def runInteractiveMode (studentName : String) (e0 : Env) (cycles : List Cycle)
    (s : State) : State × Bool :=
  runLoop studentName cycles (getDeviceInfo e0 s)

/-! ## Start-up arguments (`main`) -/

/-- Go `strings.TrimPrefix(s, "--")`. -/
def trimDashes (s : String) : String :=
  match s.toList with
  | '-' :: '-' :: r => String.mk r
  | _ => s

/-- The `switch commandArg` at the end of the argument handling of `main`;
none of its cases enters the loop. -/
def startupSwitch (studentName : String) (e : Env) (commandArg : String)
    (s : State) : State × Bool :=
  if commandArg = "status" then (getDeviceInfo e s, false)
  else if commandArg = "acon" then
    let s1 := getDeviceInfo e s
    match e.fetch with
    | none => (s1, false)
    | some d => ((submitAction studentName e "acon" d s1).1, false)
  else if commandArg = "acoff" then
    let s1 := getDeviceInfo e s
    match e.fetch with
    | none => (s1, false)
    | some d => ((submitAction studentName e "acoff" d s1).1, false)
  else (s, false)

/-- The argument handling of `main` up to the point where it either returns
or calls `runInteractiveMode`: `arg` is `strings.ToLower(os.Args[1])` and
`rest` is `os.Args[2:]`. The flag tells whether `runInteractiveMode` is
entered. The `--acon N` and `--timer HH:MM` branches assign the timer
variables before they fetch. -/
def startup (studentName : String) (e : Env) (arg : String) (rest : List String)
    (s : State) : State × Bool :=
  let commandArg := trimDashes arg
  match rest with
  | a :: _ =>
    if commandArg = "acon" then
      match Atoi a with
      | none => (s, false)
      | some minutes =>
        if minutes ≤ 0 then (s, false)
        else
          let s0 := { s with timer :=
            { timerActive := true
              timerEndTime := timeAdd e.now (wrapInt64 (minutes * Minute))
              timerDuration := wrapInt64 (minutes * Minute)
              timerDescription := toString minutes ++ "分鐘" } }
          let s1 := getDeviceInfo e s0
          match e.fetch with
          | none => (s1, false)
          | some d =>
            let r := submitAction studentName e "acon" d s1
            if r.2 then (r.1, true) else (r.1, false)
    else if commandArg = "timer" then
      match parseClock a with
      | none => (s, false)
      | some (hour, min) =>
        let target := targetDateTime e.location e.now hour min
        let s0 := { s with timer :=
          { timerActive := true
            timerEndTime := target
            timerDuration := timeSub target e.now
            timerDescription := "指定時間 " ++ a } }
        let s1 := getDeviceInfo e s0
        match e.fetch with
        | none => (s1, false)
        | some d => ((submitAction studentName e "acon" d s1).1, true)
    else startupSwitch studentName e commandArg s
  | [] => startupSwitch studentName e commandArg s

/-- The function `main` after the configuration is loaded: without arguments
it enters the loop; with arguments it handles them and enters the loop only
from the two timed branches. `args` is `os.Args[1:]` with the first element
lower-cased; `e` is what the argument handling sees, `e0` and `cycles` what
the loop sees. -/
def main (studentName : String) (args : List String) (e e0 : Env)
    (cycles : List Cycle) : State × Bool :=
  match args with
  | [] => runInteractiveMode studentName e0 cycles initialState
  | arg :: rest =>
    let r := startup studentName e arg rest initialState
    if r.2 then runInteractiveMode studentName e0 cycles r.1 else r

/-! ## Sample data for the concrete checks -/

/-- A fan record. -/
def sampleFan : DeviceFan :=
  { ID := "f1", DeviceID := "d1", FanType := 1, Password := "", FanStatus := 0,
    LockStatus := 0, TempSetting := 0, FanModel := 1, WindSpeed := 2, MaxTemp := 0,
    MinTemp := 0, CompensateTemp := 0, CompensateFalg := 0, ReturnTemp := 0,
    CurrentTemp := 0, FanStatusOld := 0 }

/-- A snapshot with a fan record. -/
def sampleDevice : DeviceInfo :=
  { ID := "d1", ManufactorID := "", ModelID := "", GatewayID := "", PortID := "",
    CampusID := "", BuildingID := "", FloorID := "", RoomID := "", DeviceType := 1,
    DeviceNo := "A-101", DeviceIdx := 0, Status := 1, StatusReason := "",
    Creator := "", CreateDate := "", CampusTitle := "", BuildingTitle := "",
    FloorTitle := "", RoomNo := "101", ManufactorTitle := "", ModelTitle := "",
    GatewayNo := "", SNCode := "", PortIdx := 0, DeviceFan := some sampleFan,
    DeviceMeter := "null", DeviceWater := "null", IsInstallFinish := 1,
    Position := "null", CommandKey := "", LastCommunication := "",
    ProcessResult := "null", ProcessMsg := "null", CollectorNo := "",
    Forbidden := 0, Balance := 0, NickNames := "", UpdateDate := "",
    MeterUsePower := "null", DeviceGroup := "null", StudentName := "" }

/-- An environment in which fetch and submission succeed, at instant `now`
in a fixed time zone eight hours east of UTC. -/
def okEnv (now : Int) : Env :=
  { now := now, location := fixedZone 28800, fetch := some sampleDevice, postOk := true }

/-- An environment in which the fetch fails. -/
def fetchFailEnv (now : Int) : Env :=
  { now := now, location := fixedZone 28800, fetch := none, postOk := true }

/-- An environment in which the fetch succeeds and the submission fails. -/
def postFailEnv (now : Int) : Env :=
  { now := now, location := fixedZone 28800, fetch := some sampleDevice, postOk := false }

/-- A state whose timer is armed with the given target. -/
def armedState (target : Int) : State :=
  { timer := { timerActive := true, timerEndTime := target, timerDuration := 5 * Minute,
               timerDescription := "5分鐘" },
    deviceInfo := none, calls := [] }

/-! ## Predicates used in the statements -/

/-- A command that arms the timer when it succeeds: `/acon N` with an
accepted positive `N`, or `/timer HH:MM` with a time that parses. -/
def isArmingCommand : List String → Bool
  | command :: a :: _ =>
    (command == "/acon" &&
      (match Atoi a with
        | some n => decide (0 < n)
        | none => false)) ||
    (command == "/timer" && (parseClock a).isSome)
  | _ => false

/-- Fetch and submission both succeed in the environment. -/
def succeeds (e : Env) : Bool := e.fetch.isSome && e.postOk

/-- The local time zone of the eastern United States around 2026: five
hours behind UTC in winter, four in summer, with the changes of 2025-11-02,
2026-03-08, 2026-11-01 and 2027-03-14 (at 06:00, 07:00, 06:00 and 07:00
UTC). -/
def newYork : Location :=
  { firstOffset := -14400
    tx := [(1762063200, -18000), (1772953200, -14400), (1793512800, -18000),
           (1805007600, -14400)] }

/-- An environment in which fetch and submission succeed, at instant `now`
in the zone `newYork`. -/
def newYorkEnv (now : Int) : Env :=
  { now := now, location := newYork, fetch := some sampleDevice, postOk := true }

/-- The offset of the location from UTC is `off`, at most a day, at every
instant from 72 hours before `now` to 72 hours after it. -/
def offsetConstantNear (loc : Location) (now off : Int) : Prop :=
  -86400 ≤ off ∧ off ≤ 86400 ∧
  ∀ t : Int, now / Second - 259200 ≤ t → t ≤ now / Second + 259200 →
    (loc.lookup t).offset = off

/-! ## The timer status line of `printDeviceInfo` -/

/-! A `float64` is kept exactly, as the integer number of units of `2^-100`
it is worth. Every `float64` that occurs in `Duration.Hours`,
`Duration.Minutes` and `Duration.Seconds` is 0 or has a magnitude between
`2^-48` and `2^63`, and all of those are whole numbers of such units. -/

/-- The number of units in 1.0: `2^100`. -/
def floatScale : Nat := 2 ^ 100

/-- The quotient `n / d` rounded to the nearest natural number, ties to the
even one. -/
def roundHalfEven (n d : Nat) : Nat :=
  let q := n / d
  let r := n % d
  if 2 * r < d then q
  else if d < 2 * r then q + 1
  else if q % 2 = 0 then q else q + 1

/-- The number of binary digits of `t`, counted in at most `fuel` steps. -/
def bitLength : Nat → Nat → Nat
  | 0, _ => 0
  | fuel + 1, t => if t = 0 then 0 else bitLength fuel (t / 2) + 1

/-- IEEE 754 round-to-nearest-even of the rational `n / d` to a `float64`
(53 significant bits), in units of `2^-100`; meant for `n / d = 0` and for
`2^-48 <= n / d < 2^1023`. The unit in the last place is `2^s` units, where
the value has `s + 53` binary digits. -/
def roundFloat64 (n d : Nat) : Nat :=
  let t := n * floatScale / d
  if t = 0 then 0
  else
    let s := bitLength 1200 t - 53
    roundHalfEven (n * floatScale) (d * 2 ^ s) * 2 ^ s

/-- Go conversion `float64(x)` of an integer. -/
def floatOfInt (x : Int) : Int := Int.sign x * (roundFloat64 x.natAbs 1 : Nat)

/-- Go `a / b` on `float64`. -/
def floatDiv (a b : Int) : Int :=
  Int.sign a * Int.sign b * (roundFloat64 a.natAbs b.natAbs : Nat)

/-- Go `a + b` on `float64`. -/
def floatAdd (a b : Int) : Int :=
  Int.sign (a + b) * (roundFloat64 (a + b).natAbs floatScale : Nat)

/-- Go conversion `int(f)` of a `float64`: the fraction is discarded. -/
def floatToInt (a : Int) : Int := Int.tdiv a floatScale

/-- Go `Duration.Hours`: `float64(d / Hour) + float64(d % Hour) / (60*60*1e9)`. -/
def Duration.Hours (d : Int) : Int :=
  floatAdd (floatOfInt (Int.tdiv d Hour))
    (floatDiv (floatOfInt (Int.tmod d Hour)) (floatOfInt 3600000000000))

/-- Go `Duration.Minutes`: `float64(d / Minute) + float64(d % Minute) / (60*1e9)`. -/
def Duration.Minutes (d : Int) : Int :=
  floatAdd (floatOfInt (Int.tdiv d Minute))
    (floatDiv (floatOfInt (Int.tmod d Minute)) (floatOfInt 60000000000))

/-- Go `Duration.Seconds`: `float64(d / Second) + float64(d % Second) / 1e9`. -/
def Duration.Seconds (d : Int) : Int :=
  floatAdd (floatOfInt (Int.tdiv d Second))
    (floatDiv (floatOfInt (Int.tmod d Second)) (floatOfInt 1000000000))

/-- What the timer status line of `printDeviceInfo` shows: not enabled;
expired and waiting for the shutdown; or enabled, with the description, the
hours, minutes and seconds printed by `%02d時%02d分%02d秒`, and the end time. -/
inductive TimerStatus where
  | inactive : TimerStatus
  | expired : TimerStatus
  | running : String → Int → Int → Int → Int → TimerStatus
  deriving DecidableEq, Repr

/-- The timer block of `printDeviceInfo`, called at instant `now`. -/
def printDeviceInfo (timer : TimerVars) (now : Int) : TimerStatus :=
  if timer.timerActive then
    let remaining := timeSub timer.timerEndTime now
    if remaining ≤ 0 then TimerStatus.expired
    else
      let hours := floatToInt (Duration.Hours remaining)
      let minutes := Int.tmod (floatToInt (Duration.Minutes remaining)) 60
      let seconds := Int.tmod (floatToInt (Duration.Seconds remaining)) 60
      TimerStatus.running timer.timerDescription hours minutes seconds timer.timerEndTime
  else TimerStatus.inactive

/-! ## Counting what the loop sends -/

/-- The number of off-commands among the calls: submissions whose command
marker is `AirClose`. -/
def offCommandCount (calls : List Event) : Nat :=
  (calls.filter (fun ev =>
    match ev with
    | Event.fetch => false
    | Event.submit p => p.CommandKey == "AirClose")).length

/-- The `for` loop with the timer block at its top left out: the commands
alone. -/
def runCommands (studentName : String) : List Cycle → State → State × Bool
  | [], s => (s, true)
  | c :: cs, s =>
    let r := dispatch studentName c.cmd c.commandParts s
    if r.2 then runCommands studentName cs r.1 else r

/-! ## Auxiliary facts -/

theorem timeSub_nonpos_iff (t u : Int) : timeSub t u ≤ 0 ↔ t ≤ u := by
  unfold timeSub minInt64 maxInt64
  split_ifs <;> constructor <;> intro h <;> omega

theorem mutateSnapshot_acoff (d : DeviceInfo) (studentName : String) :
    mutateSnapshot d "acoff" studentName =
      some { d with
        CommandKey := "AirClose"
        DeviceFan := d.DeviceFan.map (fun fan => { fan with FanStatus := 0 })
        StudentName := studentName } := by
  simp [mutateSnapshot]

theorem mutateSnapshot_acon (d : DeviceInfo) (studentName : String) :
    mutateSnapshot d "acon" studentName =
      some { d with
        CommandKey := "AirOpen"
        DeviceFan := d.DeviceFan.map (fun fan => { fan with FanStatus := 1 })
        StudentName := studentName } := by
  simp [mutateSnapshot]

/-! ## The expiry check -/

/-- C1, the claim as stated fails when the fetch of the due branch fails:
the timer of `armedState` is active with target 10:05:00, the check runs at
exactly that instant, the fetch fails, and the check makes one GET, submits
no off-command, and clears the timer. -/
theorem expiryCheck_at_target_failed_fetch :
    (armedState 1767233100000000000).timer.timerActive = true ∧
    (fetchFailEnv 1767233100000000000).now =
      (armedState 1767233100000000000).timer.timerEndTime ∧
    (expiryCheck "op" (fetchFailEnv 1767233100000000000)
      (armedState 1767233100000000000)).calls = [Event.fetch] ∧
    offCommandCount (expiryCheck "op" (fetchFailEnv 1767233100000000000)
      (armedState 1767233100000000000)).calls = 0 ∧
    (expiryCheck "op" (fetchFailEnv 1767233100000000000)
      (armedState 1767233100000000000)).timer.timerActive = false := by
  decide

/-- C1 (amended): the expiry check of the loop treats the timer as due
exactly when it is active and `now >= timerEndTime`. For an active timer with
target `T`, the check at `T - 1s` changes nothing (no call is made and the
timer stays active), and the check at `T` takes the due branch: it fetches
the snapshot, submits the off-command built from it when the fetch succeeds
and nothing when it fails, and clears the timer. -/
theorem expiryCheck_closed_interval (studentName : String) (e : Env) (s : State) :
    ((expiryCheck studentName e s ≠ s) ↔
        (s.timer.timerActive = true ∧ s.timer.timerEndTime ≤ e.now)) ∧
    (s.timer.timerActive = true →
      expiryCheck studentName { e with now := s.timer.timerEndTime - Second } s = s ∧
      (expiryCheck studentName { e with now := s.timer.timerEndTime } s).timer.timerActive
        = false ∧
      (expiryCheck studentName { e with now := s.timer.timerEndTime } s).calls =
        s.calls ++ Event.fetch ::
          (match e.fetch with
            | none => []
            | some d => [Event.submit { d with
                CommandKey := "AirClose"
                DeviceFan := d.DeviceFan.map (fun fan => { fan with FanStatus := 0 })
                StudentName := studentName }])) := by
  refine ⟨?_, ?_⟩
  · unfold expiryCheck
    by_cases ha : s.timer.timerActive = true
    · by_cases hd : s.timer.timerEndTime ≤ e.now
      · have hr : timeSub s.timer.timerEndTime e.now ≤ 0 := (timeSub_nonpos_iff _ _).2 hd
        simp only [ha, hr, if_true, hd, and_self, iff_true]
        intro h
        have := congrArg (fun x => x.timer.timerActive) h
        simp [ha] at this
      · have hr : ¬ timeSub s.timer.timerEndTime e.now ≤ 0 :=
          fun h => hd ((timeSub_nonpos_iff _ _).1 h)
        simp [ha, hr, hd]
    · simp [ha]
  · intro ha
    refine ⟨?_, ?_, ?_⟩
    · unfold expiryCheck
      have hr : ¬ timeSub s.timer.timerEndTime (s.timer.timerEndTime - Second) ≤ 0 := by
        rw [timeSub_nonpos_iff]; simp only [Second]; omega
      simp [ha, hr]
    · unfold expiryCheck
      have hr : timeSub s.timer.timerEndTime s.timer.timerEndTime ≤ 0 :=
        (timeSub_nonpos_iff _ _).2 (le_refl _)
      simp [ha, hr]
    · unfold expiryCheck
      have hr : timeSub s.timer.timerEndTime s.timer.timerEndTime ≤ 0 :=
        (timeSub_nonpos_iff _ _).2 (le_refl _)
      cases hf : e.fetch with
      | none => simp [ha, hr, getDeviceInfo, hf]
      | some d =>
        simp [ha, hr, getDeviceInfo, hf, submitAction, operateDevice, mutateSnapshot_acoff]

theorem expiryCheck_closed_interval_witness :
    (armedState 1767233100000000000).timer.timerActive = true ∧
    expiryCheck "op"
      { okEnv 0 with now := (armedState 1767233100000000000).timer.timerEndTime - Second }
      (armedState 1767233100000000000) = armedState 1767233100000000000 ∧
    (expiryCheck "op"
      { okEnv 0 with now := (armedState 1767233100000000000).timer.timerEndTime }
      (armedState 1767233100000000000)).timer.timerActive = false :=
  ⟨rfl,
   ((expiryCheck_closed_interval "op" (okEnv 0) (armedState 1767233100000000000)).2 rfl).1,
   ((expiryCheck_closed_interval "op" (okEnv 0) (armedState 1767233100000000000)).2 rfl).2.1⟩

/-! ## The on command with minutes -/

theorem wrapInt64_minutes (n : Int) (h0 : 0 < n) (h1 : n ≤ 153722867) :
    wrapInt64 (n * Minute) = n * Minute := by
  unfold wrapInt64 Minute Second
  omega

theorem aconMinutes_of_atoi (a : String) (rest : List String) (n : Int)
    (ha : Atoi a = some n) (hn : 0 < n) : aconMinutes (a :: rest) = some n := by
  have : ¬ n ≤ 0 := by omega
  simp [aconMinutes, ha, this]

/-- The on command with minutes, for the minutes whose duration fits `int64`:
when `/acon N` with `0 < N <= 153722867` succeeds at instant `now`, the timer
is active with target `now + N` minutes, later than `now`, and the
description is the decimal rendering of `N` followed by the minutes label. -/
theorem acon_arms_timer_in_range (studentName : String) (e : Env) (s : State)
    (a : String) (rest : List String) (n : Int) (d : DeviceInfo)
    (ha : Atoi a = some n) (h0 : 0 < n) (h1 : n ≤ 153722867)
    (hf : e.fetch = some d) (hp : e.postOk = true) :
    (dispatch studentName e ("/acon" :: a :: rest) s).1.timer =
      { timerActive := true
        timerEndTime := e.now + n * Minute
        timerDuration := n * Minute
        timerDescription := toString n ++ "分鐘" } ∧
    e.now < (dispatch studentName e ("/acon" :: a :: rest) s).1.timer.timerEndTime := by
  have hm := aconMinutes_of_atoi a rest n ha h0
  have hw := wrapInt64_minutes n h0 h1
  have hpos : 0 < n * Minute := by unfold Minute Second; omega
  simp [dispatch, cmdAcon, hm, hf, hp, submitAction, operateDevice, mutateSnapshot_acon,
    h0, hw, timeAdd, hpos]

/-- C2: the minutes of `/acon N` are multiplied by `time.Minute` in `int64`
without a range check. `/acon 153722868` is accepted (`Atoi` returns
153722868, which is positive), fetch and submission succeed at 10:00:00, and
the timer is armed with the description "153722868分鐘" but with a target that
is not `now + N` minutes: the product has wrapped to a negative duration and
the target lies before `now`, so the next expiry check switches the device
off at once. -/
theorem acon_minutes_overflow :
    Atoi "153722868" = some 153722868 ∧
    (dispatch "op" (okEnv 1767232800000000000) ["/acon", "153722868"] initialState).1.timer =
      { timerActive := true
        timerEndTime := -7456139193709551616
        timerDuration := -9223371993709551616
        timerDescription := "153722868分鐘" } ∧
    (dispatch "op" (okEnv 1767232800000000000) ["/acon", "153722868"]
        initialState).1.timer.timerEndTime < 1767232800000000000 ∧
    (dispatch "op" (okEnv 1767232800000000000) ["/acon", "153722868"]
        initialState).1.timer.timerEndTime ≠ 1767232800000000000 + 153722868 * Minute ∧
    (cycle "op"
        { check := okEnv 1767232801000000000, commandParts := [],
          cmd := okEnv 1767232801000000000 }
        (dispatch "op" (okEnv 1767232800000000000) ["/acon", "153722868"]
          initialState).1).1.timer.timerActive = false := by
  decide

/-- The scenario of the specification: `/acon 5` succeeding at 10:00:00 arms
the timer for 10:05:00 with the description "5分鐘", and the expiry check at
10:05:00 submits the off-command and clears the timer. -/
theorem acon_five_minutes_scenario :
    (dispatch "op" (okEnv 1767232800000000000) ["/acon", "5"] initialState).1.timer =
      { timerActive := true
        timerEndTime := 1767232800000000000 + 5 * Minute
        timerDuration := 5 * Minute
        timerDescription := "5分鐘" } ∧
    (expiryCheck "op" (okEnv (1767232800000000000 + 5 * Minute))
      (dispatch "op" (okEnv 1767232800000000000) ["/acon", "5"]
        initialState).1).timer.timerActive = false := by
  decide

/-! ## Arming overwrites, off and untimed on cancel -/

theorem succeeds_iff (e : Env) :
    succeeds e = true ↔ (∃ d, e.fetch = some d) ∧ e.postOk = true := by
  unfold succeeds
  cases e.fetch <;> simp

theorem dispatch_arming_timer (studentName : String) (e : Env) (parts : List String)
    (s s' : State) (h : isArmingCommand parts = true) (hs : succeeds e = true) :
    (dispatch studentName e parts s).1.timer = (dispatch studentName e parts s').1.timer ∧
    (dispatch studentName e parts s).1.timer.timerActive = true := by
  obtain ⟨⟨d, hf⟩, hp⟩ := (succeeds_iff e).1 hs
  match parts, h with
  | command :: a :: rest, h =>
    simp only [isArmingCommand, Bool.or_eq_true, Bool.and_eq_true, beq_iff_eq] at h
    rcases h with ⟨hc, hn⟩ | ⟨hc, hk⟩
    · subst hc
      cases ha : Atoi a with
      | none => simp [ha] at hn
      | some n =>
        simp only [ha, decide_eq_true_eq] at hn
        have hm := aconMinutes_of_atoi a rest n ha hn
        simp [dispatch, cmdAcon, hm, hf, hp, submitAction, operateDevice,
          mutateSnapshot_acon, hn]
    · subst hc
      cases hk2 : parseClock a with
      | none => simp [hk2] at hk
      | some hm =>
        obtain ⟨hour, min⟩ := hm
        simp [dispatch, cmdTimer, hk2, hf, hp, submitAction, operateDevice,
          mutateSnapshot_acon]

/-- C3: arming is last-write-wins. After two loop iterations whose commands
both arm the timer successfully (`/acon N` with positive `N`, or `/timer
HH:MM`), the timer variables are exactly those the second command produces
from the timer of a freshly started program; they do not depend on the first
command or on the state before it. -/
theorem arming_last_write_wins (studentName : String) (c1 c2 : Cycle) (s : State)
    (h1 : isArmingCommand c1.commandParts = true) (hs1 : succeeds c1.cmd = true)
    (h2 : isArmingCommand c2.commandParts = true) (hs2 : succeeds c2.cmd = true) :
    (cycle studentName c1 s).1.timer.timerActive = true ∧
    (cycle studentName c2 (cycle studentName c1 s).1).1.timer.timerActive = true ∧
    (cycle studentName c2 (cycle studentName c1 s).1).1.timer =
      (dispatch studentName c2.cmd c2.commandParts initialState).1.timer := by
  unfold cycle
  exact ⟨(dispatch_arming_timer studentName c1.cmd c1.commandParts _ s h1 hs1).2,
    (dispatch_arming_timer studentName c2.cmd c2.commandParts _ s h2 hs2).2,
    (dispatch_arming_timer studentName c2.cmd c2.commandParts _ initialState h2 hs2).1⟩

theorem arming_last_write_wins_witness :
    (cycle "op"
      { check := okEnv 1767232860000000000, commandParts := ["/timer", "09:00"],
        cmd := okEnv 1767232860000000000 }
      (cycle "op"
        { check := okEnv 1767232800000000000, commandParts := ["/acon", "5"],
          cmd := okEnv 1767232800000000000 }
        initialState).1).1.timer =
      { timerActive := true
        timerEndTime := 1767315600000000000
        timerDuration := 82740000000000
        timerDescription := "指定時間 09:00" } :=
  ((arming_last_write_wins "op"
      { check := okEnv 1767232800000000000, commandParts := ["/acon", "5"],
        cmd := okEnv 1767232800000000000 }
      { check := okEnv 1767232860000000000, commandParts := ["/timer", "09:00"],
        cmd := okEnv 1767232860000000000 }
      initialState (by decide) (by decide) (by decide) (by decide)).2.2).trans (by decide)

/-- C4: when the fetch and the submission of `/acoff` both succeed, the
timer is inactive afterwards, whatever the timer variables were before. -/
theorem acoff_success_cancels (studentName : String) (e : Env) (s : State)
    (rest : List String) (d : DeviceInfo)
    (hf : e.fetch = some d) (hp : e.postOk = true) :
    (dispatch studentName e ("/acoff" :: rest) s).1.timer.timerActive = false := by
  simp [dispatch, cmdAcoff, hf, hp, submitAction, operateDevice, mutateSnapshot_acoff]

theorem acoff_success_cancels_witness :
    (dispatch "op" (okEnv 1767232800000000000) ["/acoff"]
      (armedState 1767233100000000000)).1.timer.timerActive = false :=
  acoff_success_cancels "op" (okEnv 1767232800000000000) (armedState 1767233100000000000)
    [] sampleDevice rfl rfl

/-- C5: when `/acon` is given without a minutes argument and its fetch and
submission both succeed, the timer is inactive afterwards, also when it was
active before. -/
theorem acon_untimed_success_cancels (studentName : String) (e : Env) (s : State)
    (d : DeviceInfo) (hf : e.fetch = some d) (hp : e.postOk = true) :
    (dispatch studentName e ["/acon"] s).1.timer.timerActive = false := by
  simp [dispatch, cmdAcon, aconMinutes, hf, hp, submitAction, operateDevice,
    mutateSnapshot_acon]

theorem acon_untimed_success_cancels_witness :
    (dispatch "op" (okEnv 1767232800000000000) ["/acon"]
      (armedState 1767233100000000000)).1.timer.timerActive = false :=
  acon_untimed_success_cancels "op" (okEnv 1767232800000000000)
    (armedState 1767233100000000000) sampleDevice rfl rfl

/-! ## Failures leave the timer alone -/

/-- C6: in the loop, for `/status`, `/acon` with or without minutes, `/acoff`
and `/timer`, and for every prior state: when the fetch fails, or the fetch
succeeds and the submission fails, the timer variables after the command are
those before it, and the loop goes on. -/
theorem failure_leaves_timer (studentName : String) (e : Env) (s : State)
    (command : String) (args : List String)
    (hc : command = "/status" ∨ command = "/acon" ∨ command = "/acoff" ∨ command = "/timer")
    (hfail : e.fetch = none ∨ e.postOk = false) :
    (dispatch studentName e (command :: args) s).1.timer = s.timer ∧
    (dispatch studentName e (command :: args) s).2 = true := by
  rcases hc with hc | hc | hc | hc <;> subst hc
  · simp [dispatch, cmdStatus, getDeviceInfo]
  · simp only [dispatch]
    simp only [cmdAcon]
    cases aconMinutes args with
    | none => simp
    | some n =>
      cases hf : e.fetch with
      | none => simp [getDeviceInfo]
      | some d =>
        have hp : e.postOk = false := by
          rcases hfail with h | h
          · simp [hf] at h
          · exact h
        simp [getDeviceInfo, submitAction, operateDevice, mutateSnapshot_acon, hp]
  · simp only [dispatch]
    simp only [cmdAcoff]
    cases hf : e.fetch with
    | none => simp [getDeviceInfo]
    | some d =>
      have hp : e.postOk = false := by
        rcases hfail with h | h
        · simp [hf] at h
        · exact h
      simp [getDeviceInfo, submitAction, operateDevice, mutateSnapshot_acoff, hp]
  · simp only [dispatch]
    simp only [cmdTimer]
    cases args with
    | nil => simp
    | cons a rest =>
      cases hk : parseClock a with
      | none => simp [hk]
      | some hm =>
        obtain ⟨hour, min⟩ := hm
        cases hf : e.fetch with
        | none => simp [hk, getDeviceInfo]
        | some d =>
          have hp : e.postOk = false := by
            rcases hfail with h | h
            · simp [hf] at h
            · exact h
          simp [hk, getDeviceInfo, submitAction, operateDevice, mutateSnapshot_acon, hp]

theorem failure_leaves_timer_witness :
    (dispatch "op" (postFailEnv 1767232800000000000) ["/acon", "5"]
      (armedState 1767233100000000000)).1.timer = (armedState 1767233100000000000).timer ∧
    (dispatch "op" (postFailEnv 1767232800000000000) ["/acon", "5"]
      (armedState 1767233100000000000)).2 = true :=
  failure_leaves_timer "op" (postFailEnv 1767232800000000000)
    (armedState 1767233100000000000) "/acon" ["5"] (Or.inr (Or.inl rfl)) (Or.inr rfl)

/-! ## Start-up arguments arm the timer before the network calls -/

theorem trimDashes_timer : trimDashes "--timer" = "timer" := by decide

theorem trimDashes_acon : trimDashes "--acon" = "acon" := by decide

/-- The timed start-up branches assign the timer variables before fetching:
after `--acon N` (accepted positive `N`) or `--timer HH:MM` (valid time) the
timer is active whatever the network answers. -/
theorem startup_timer_active (studentName : String) (e : Env) (s : State)
    (a : String) (rest : List String) :
    ((∃ n, Atoi a = some n ∧ 0 < n) →
      (startup studentName e "--acon" (a :: rest) s).1.timer.timerActive = true) ∧
    ((parseClock a).isSome = true →
      (startup studentName e "--timer" (a :: rest) s).1.timer.timerActive = true) := by
  refine ⟨?_, ?_⟩
  · rintro ⟨n, ha, hn⟩
    have hn2 : ¬ n ≤ 0 := by omega
    cases hf : e.fetch with
    | none => simp [startup, trimDashes_acon, ha, hn2, hf, getDeviceInfo]
    | some d =>
      cases hp : e.postOk <;>
        simp [startup, trimDashes_acon, ha, hn2, hf, hp, getDeviceInfo, submitAction,
          operateDevice, mutateSnapshot_acon]
  · intro hk
    cases hk2 : parseClock a with
    | none => simp [hk2] at hk
    | some hm =>
      obtain ⟨hour, min⟩ := hm
      have hne : ¬ ("timer" = "acon") := by decide
      cases hf : e.fetch with
      | none => simp [startup, trimDashes_timer, hne, hk2, hf, getDeviceInfo]
      | some d =>
        simp [startup, trimDashes_timer, hne, hk2, hf, getDeviceInfo, submitAction,
          operateDevice, mutateSnapshot_acon]

/-- C7: the start-up branches do not follow the rule of the loop. With
`--timer 23:30` at 10:00:00, a fetch that succeeds and a submission that
fails, `main` has already set the timer variables: the timer is active with
target 23:30:00 and `runInteractiveMode` is entered, and the loop submits the
off-command at 23:30:00. With `--acon 5` and a failing fetch the timer is
active when `main` returns. The loop command `/timer 23:30` in the same
environment leaves the timer inactive. -/
theorem startup_arms_despite_failure :
    (startup "op" (postFailEnv 1767232800000000000) "--timer" ["23:30"]
      initialState).1.timer =
      { timerActive := true
        timerEndTime := 1767281400000000000
        timerDuration := 48600000000000
        timerDescription := "指定時間 23:30" } ∧
    (startup "op" (postFailEnv 1767232800000000000) "--timer" ["23:30"] initialState).2
      = true ∧
    (main "op" ["--timer", "23:30"] (postFailEnv 1767232800000000000)
      (okEnv 1767232801000000000)
      [{ check := okEnv 1767281400000000000, commandParts := [],
         cmd := okEnv 1767281400000000000 }]).1.calls.map
      (fun ev => match ev with
        | Event.fetch => "GET"
        | Event.submit p => p.CommandKey) =
      ["GET", "AirOpen", "GET", "GET", "AirClose"] ∧
    (startup "op" (fetchFailEnv 1767232800000000000) "--acon" ["5"]
      initialState).1.timer.timerActive = true ∧
    (startup "op" (postFailEnv 1767232800000000000) "--acon" ["5"]
      initialState).1.timer.timerActive = true ∧
    (dispatch "op" (postFailEnv 1767232800000000000) ["/timer", "23:30"]
      initialState).1.timer.timerActive = false ∧
    (dispatch "op" (fetchFailEnv 1767232800000000000) ["/acon", "5"]
      initialState).1.timer.timerActive = false := by
  decide

/-! ## The schedule command -/

theorem parseClock_range (a : String) (hour min : Nat)
    (h : parseClock a = some (hour, min)) : hour < 24 ∧ min < 60 := by
  unfold parseClock at h
  split at h
  · simp at h
  · rename_i hr rest hg
    split_ifs at h with h24
    split at h
    · rename_i c rest2
      split_ifs at h with hc
      split at h
      · simp at h
      · rename_i mn rest3 hg2
        split_ifs at h with h60 he
        simp only [Option.some.injEq, Prod.mk.injEq] at h
        omega
    · simp at h

theorem timer_dispatch_target (studentName : String) (e : Env) (s : State)
    (a : String) (rest : List String) (hour min : Nat) (d : DeviceInfo)
    (hk : parseClock a = some (hour, min)) (hf : e.fetch = some d)
    (hp : e.postOk = true) :
    (dispatch studentName e ("/timer" :: a :: rest) s).1.timer.timerEndTime =
      targetDateTime e.location e.now hour min := by
  simp [dispatch, cmdTimer, hk, hf, hp, getDeviceInfo, submitAction, operateDevice,
    mutateSnapshot_acon]

theorem timer_startup_target (studentName : String) (e : Env) (s : State)
    (a : String) (rest : List String) (hour min : Nat)
    (hk : parseClock a = some (hour, min)) :
    (startup studentName e "--timer" (a :: rest) s).1.timer.timerEndTime =
      targetDateTime e.location e.now hour min := by
  have hne : ¬ ("timer" = "acon") := by decide
  cases hf : e.fetch with
  | none => simp [startup, trimDashes_timer, hne, hk, hf, getDeviceInfo]
  | some d =>
    simp [startup, trimDashes_timer, hne, hk, hf, getDeviceInfo, submitAction,
      operateDevice, mutateSnapshot_acon]

theorem targetDateTime_cases (loc : Location) (now : Int) (hour min : Nat) :
    (dateToday loc now hour min < now →
      targetDateTime loc now hour min = dateToday loc now hour min + 24 * Hour) ∧
    (now ≤ dateToday loc now hour min →
      targetDateTime loc now hour min = dateToday loc now hour min) := by
  unfold targetDateTime timeBefore timeAdd
  constructor
  · intro h; simp [h]
  · intro h
    have : ¬ dateToday loc now hour min < now := by omega
    simp [this]

/-- Where the offset does not change near `now`, `time.Date` gives local
midnight plus the hour and minute, taken back to UTC by that offset; this
holds for the date of `now` and of any instant up to 24 hours later. -/
theorem dateToday_constant (loc : Location) (now off now2 : Int) (hour min : Nat)
    (hc : offsetConstantNear loc now off) (hh : hour < 24) (hm : min < 60)
    (h1 : now / Second ≤ now2 / Second) (h2 : now2 / Second ≤ now / Second + 86400) :
    dateToday loc now2 hour min =
      ((now2 / Second + off) - (now2 / Second + off) % 86400
        + (hour : Int) * 3600 + (min : Int) * 60 - off) * Second := by
  obtain ⟨hlo, hhi, hwin⟩ := hc
  have e1 : (loc.lookup (now2 / Second)).offset = off := hwin _ (by omega) (by omega)
  have e2 : (loc.lookup ((now2 / Second + off) - (now2 / Second + off) % 86400
      + (hour : Int) * 3600 + (min : Int) * 60)).offset = off :=
    hwin _ (by omega) (by omega)
  have e3 : (loc.lookup ((now2 / Second + off) - (now2 / Second + off) % 86400
      + (hour : Int) * 3600 + (min : Int) * 60 - off)).offset = off :=
    hwin _ (by omega) (by omega)
  simp only [dateToday, e1, e2, e3]
  split_ifs <;> rfl

/-- Where the offset of the local zone does not change within 72 hours of
`now`, the schedule command resolves `HH:MM` to the next occurrence of that
wall-clock time: `/timer` and `--timer` compute the same target; it lies on a
whole second and its local time of day is `HH:MM:00`; it is today at
`HH:MM:00` when that is later than `now`; it is today at `HH:MM:00` plus 24
hours, which is `HH:MM:00` of the next calendar day, when that is earlier
than `now`; and it is never before `now`. -/
theorem schedule_next_occurrence_constant_offset (studentName : String) (e : Env)
    (s : State) (a : String) (rest : List String) (hour min : Nat) (d : DeviceInfo)
    (off : Int)
    (hk : parseClock a = some (hour, min)) (hf : e.fetch = some d)
    (hp : e.postOk = true) (hoff : offsetConstantNear e.location e.now off) :
    (startup studentName e "--timer" (a :: rest) s).1.timer.timerEndTime =
      (dispatch studentName e ("/timer" :: a :: rest) s).1.timer.timerEndTime ∧
    (dispatch studentName e ("/timer" :: a :: rest) s).1.timer.timerEndTime % Second = 0 ∧
    ((dispatch studentName e ("/timer" :: a :: rest) s).1.timer.timerEndTime / Second
        + off) % 86400 = (hour : Int) * 3600 + (min : Int) * 60 ∧
    (e.now < dateToday e.location e.now hour min →
      (dispatch studentName e ("/timer" :: a :: rest) s).1.timer.timerEndTime =
        dateToday e.location e.now hour min) ∧
    (dateToday e.location e.now hour min < e.now →
      (dispatch studentName e ("/timer" :: a :: rest) s).1.timer.timerEndTime =
        dateToday e.location e.now hour min + 24 * Hour ∧
      (dispatch studentName e ("/timer" :: a :: rest) s).1.timer.timerEndTime =
        dateToday e.location (e.now + 24 * Hour) hour min) ∧
    e.now ≤ (dispatch studentName e ("/timer" :: a :: rest) s).1.timer.timerEndTime := by
  rw [timer_dispatch_target studentName e s a rest hour min d hk hf hp,
    timer_startup_target studentName e s a rest hour min hk]
  obtain ⟨hh, hm⟩ := parseClock_range a hour min hk
  obtain ⟨hc1, hc2⟩ := targetDateTime_cases e.location e.now hour min
  have hd := dateToday_constant e.location e.now off e.now hour min hoff hh hm
    (le_refl _) (by omega)
  have hnext := dateToday_constant e.location e.now off (e.now + 24 * Hour) hour min
    hoff hh hm (by simp only [Hour, Minute, Second]; omega)
    (by simp only [Hour, Minute, Second]; omega)
  refine ⟨rfl, ?_, ?_, ?_, ?_, ?_⟩
  · rcases lt_or_le (dateToday e.location e.now hour min) e.now with h | h
    · rw [hc1 h, hd]
      simp only [Hour, Minute, Second]
      omega
    · rw [hc2 h, hd]
      simp only [Hour, Minute, Second]
      omega
  · rcases lt_or_le (dateToday e.location e.now hour min) e.now with h | h
    · rw [hc1 h, hd]
      simp only [Hour, Minute, Second]
      omega
    · rw [hc2 h, hd]
      simp only [Hour, Minute, Second]
      omega
  · intro h
    exact hc2 (le_of_lt h)
  · intro h
    rw [hc1 h]
    refine ⟨rfl, ?_⟩
    rw [hnext, hd]
    simp only [Hour, Minute, Second]
    omega
  · rcases lt_or_le (dateToday e.location e.now hour min) e.now with h | h
    · rw [hc1 h, hd]
      simp only [Hour, Minute, Second]
      omega
    · rw [hc2 h]; exact h

/-- The scenario of the specification: `timer 09:00` issued at 10:00 in a
fixed zone resolves to 09:00 of the next day. -/
theorem schedule_nine_at_ten_scenario :
    (dispatch "op" (okEnv 1767232800000000000) ["/timer", "09:00"]
      initialState).1.timer.timerEndTime =
        dateToday (fixedZone 28800) (1767232800000000000 + 24 * Hour) 9 0 ∧
    dateToday (fixedZone 28800) (1767232800000000000 + 24 * Hour) 9 0
      = 1767315600000000000 := by
  decide

/-- C9: the schedule command moves a past time of day on by 24 hours, not
to the next calendar day, and the two differ where the local offset changes.
In the zone `newYork`, `/timer 09:00` (and `--timer 09:00`) issued at 10:00
EST on 2026-03-07, the day before the clocks go forward, resolves to 14:00
UTC on 2026-03-08, which is 10:00 local time, while 09:00 of the next
calendar day is an hour earlier. `/timer 00:30` issued at 23:45 EST on
2026-11-01, a day of 25 hours, resolves to 23:30 EST of the same day, 900 s
before `now`, and the next expiry check switches the device off. -/
theorem schedule_adds_24_hours_across_offset_change :
    parseClock "09:00" = some (9, 0) ∧
    dateToday newYork 1772895600000000000 9 0 < 1772895600000000000 ∧
    (dispatch "op" (newYorkEnv 1772895600000000000) ["/timer", "09:00"]
      initialState).1.timer.timerEndTime = 1772978400000000000 ∧
    (startup "op" (newYorkEnv 1772895600000000000) "--timer" ["09:00"]
      initialState).1.timer.timerEndTime = 1772978400000000000 ∧
    (1772978400 + (newYork.lookup 1772978400).offset) % 86400 = 10 * 3600 ∧
    dateToday newYork (1772895600000000000 + 24 * Hour) 9 0 = 1772974800000000000 ∧
    parseClock "00:30" = some (0, 30) ∧
    dateToday newYork 1793594700000000000 0 30 < 1793594700000000000 ∧
    (dispatch "op" (newYorkEnv 1793594700000000000) ["/timer", "00:30"]
      initialState).1.timer.timerEndTime = 1793594700000000000 - 900 * Second ∧
    (dispatch "op" (newYorkEnv 1793594700000000000) ["/timer", "00:30"]
      initialState).1.timer.timerEndTime < 1793594700000000000 ∧
    (startup "op" (newYorkEnv 1793594700000000000) "--timer" ["00:30"]
      initialState).1.timer.timerEndTime < 1793594700000000000 ∧
    (cycle "op"
      { check := newYorkEnv 1793594701000000000, commandParts := [],
        cmd := newYorkEnv 1793594701000000000 }
      (dispatch "op" (newYorkEnv 1793594700000000000) ["/timer", "00:30"]
        initialState).1).1.timer.timerActive = false := by
  decide

/-! ## Validation before any side effect -/

/-- C10: a minutes argument of `/acon` that `Atoi` rejects or that is not
positive, a missing argument of `/timer`, and an argument of `/timer` that
does not parse as a 24-hour time each leave the whole state as it was: no
fetch, no submission, the same timer variables; and the loop goes on. -/
theorem invalid_argument_no_effect (studentName : String) (e : Env) (s : State)
    (a : String) (rest : List String) :
    ((Atoi a = none ∨ ∃ n, Atoi a = some n ∧ n ≤ 0) →
      dispatch studentName e ("/acon" :: a :: rest) s = (s, true)) ∧
    dispatch studentName e ["/timer"] s = (s, true) ∧
    (parseClock a = none →
      dispatch studentName e ("/timer" :: a :: rest) s = (s, true)) := by
  refine ⟨?_, ?_, ?_⟩
  · rintro (ha | ⟨n, ha, hn⟩)
    · simp [dispatch, cmdAcon, aconMinutes, ha]
    · simp [dispatch, cmdAcon, aconMinutes, ha, hn]
  · simp [dispatch, cmdTimer]
  · intro hk
    simp [dispatch, cmdTimer, hk]

theorem invalid_argument_no_effect_witness :
    dispatch "op" (okEnv 1767232800000000000) ["/acon", "abc"]
      (armedState 1767233100000000000) = (armedState 1767233100000000000, true) ∧
    dispatch "op" (okEnv 1767232800000000000) ["/acon", "0"]
      (armedState 1767233100000000000) = (armedState 1767233100000000000, true) ∧
    dispatch "op" (okEnv 1767232800000000000) ["/acon", "-5"]
      (armedState 1767233100000000000) = (armedState 1767233100000000000, true) ∧
    dispatch "op" (okEnv 1767232800000000000) ["/timer", "25:00"]
      (armedState 1767233100000000000) = (armedState 1767233100000000000, true) :=
  ⟨(invalid_argument_no_effect "op" (okEnv 1767232800000000000)
      (armedState 1767233100000000000) "abc" []).1 (Or.inl (by decide)),
   (invalid_argument_no_effect "op" (okEnv 1767232800000000000)
      (armedState 1767233100000000000) "0" []).1 (Or.inr ⟨0, by decide, by decide⟩),
   (invalid_argument_no_effect "op" (okEnv 1767232800000000000)
      (armedState 1767233100000000000) "-5" []).1 (Or.inr ⟨-5, by decide, by decide⟩),
   (invalid_argument_no_effect "op" (okEnv 1767232800000000000)
      (armedState 1767233100000000000) "25:00" []).2.2 (by decide)⟩

/-! ## A due action fires at most once -/

theorem expiryCheck_inactive (studentName : String) (e : Env) (s : State)
    (h : s.timer.timerActive = false) : expiryCheck studentName e s = s := by
  simp [expiryCheck, h]

theorem dispatch_keeps_inactive (studentName : String) (e : Env) (parts : List String)
    (s : State) (hna : (isArmingCommand parts && succeeds e) = false)
    (h : s.timer.timerActive = false) :
    (dispatch studentName e parts s).1.timer.timerActive = false := by
  cases parts with
  | nil => simpa [dispatch] using h
  | cons command args =>
    simp only [dispatch]
    split_ifs with h1 h2 h3 h4 h5 h6
    · simpa [cmdStatus, getDeviceInfo] using h
    · subst h2
      cases hm : aconMinutes args with
      | none => simpa [cmdAcon, hm] using h
      | some n =>
        cases hf : e.fetch with
        | none => simpa [cmdAcon, hm, hf, getDeviceInfo] using h
        | some d =>
          cases hp : e.postOk with
          | false =>
            simpa [cmdAcon, hm, hf, hp, getDeviceInfo, submitAction, operateDevice,
              mutateSnapshot_acon] using h
          | true =>
            have hs : succeeds e = true := (succeeds_iff e).2 ⟨⟨d, hf⟩, hp⟩
            have hn : ¬ n > 0 := by
              intro hpos
              cases args with
              | nil =>
                simp only [aconMinutes, Option.some.injEq] at hm
                omega
              | cons a rest =>
                cases ha : Atoi a with
                | none => simp [aconMinutes, ha] at hm
                | some k =>
                  simp only [aconMinutes, ha] at hm
                  split_ifs at hm with hk
                  simp only [Option.some.injEq] at hm
                  subst hm
                  simp [isArmingCommand, ha, hpos, hs] at hna
            simp [cmdAcon, hm, hf, hp, getDeviceInfo, submitAction, operateDevice,
              mutateSnapshot_acon, hn]
    · cases hf : e.fetch with
      | none => simpa [cmdAcoff, hf, getDeviceInfo] using h
      | some d =>
        cases hp : e.postOk with
        | false =>
          simpa [cmdAcoff, hf, hp, getDeviceInfo, submitAction, operateDevice,
            mutateSnapshot_acoff] using h
        | true =>
          simp [cmdAcoff, hf, hp, getDeviceInfo, submitAction, operateDevice,
            mutateSnapshot_acoff]
    · subst h4
      cases args with
      | nil => simpa [cmdTimer] using h
      | cons a rest =>
        cases hk : parseClock a with
        | none => simpa [cmdTimer, hk] using h
        | some hm =>
          obtain ⟨hour, min⟩ := hm
          cases hf : e.fetch with
          | none => simpa [cmdTimer, hk, hf, getDeviceInfo] using h
          | some d =>
            cases hp : e.postOk with
            | false =>
              simpa [cmdTimer, hk, hf, hp, getDeviceInfo, submitAction, operateDevice,
                mutateSnapshot_acon] using h
            | true =>
              have hs : succeeds e = true := (succeeds_iff e).2 ⟨⟨d, hf⟩, hp⟩
              simp [isArmingCommand, hk, hs] at hna
    · exact h
    · exact h
    · exact h

theorem runLoop_inactive (studentName : String) (cs : List Cycle) :
    ∀ s : State, s.timer.timerActive = false →
      (∀ c ∈ cs, (isArmingCommand c.commandParts && succeeds c.cmd) = false) →
      runLoop studentName cs s = runCommands studentName cs s := by
  induction cs with
  | nil => intro s _ _; rfl
  | cons c cs ih =>
    intro s h hcs
    have hc := hcs c (List.mem_cons_self c cs)
    have hrest : ∀ c' ∈ cs, (isArmingCommand c'.commandParts && succeeds c'.cmd) = false :=
      fun c' hm => hcs c' (List.mem_cons_of_mem c hm)
    have hkeep := dispatch_keeps_inactive studentName c.cmd c.commandParts s hc h
    simp only [runLoop, runCommands, cycle, expiryCheck_inactive studentName c.check s h]
    split_ifs with hgo
    · exact ih _ hkeep hrest
    · rfl

theorem offCommandCount_append (xs ys : List Event) :
    offCommandCount (xs ++ ys) = offCommandCount xs + offCommandCount ys := by
  simp [offCommandCount, List.filter_append]

/-- C11, the claim as stated fails when the fetch of the due branch fails:
the timer of `armedState` is due at 10:05:00, the fetch fails, and over this
cycle and a later one the loop makes one GET and submits no off-command at
all, while the timer is cleared; the action is executed zero times, not
once. -/
theorem due_timer_failed_fetch_sends_no_off_command :
    (armedState 1767233100000000000).timer.timerActive = true ∧
    (armedState 1767233100000000000).timer.timerEndTime ≤
      (fetchFailEnv 1767233100000000000).now ∧
    (runLoop "op"
      [{ check := fetchFailEnv 1767233100000000000, commandParts := [],
         cmd := fetchFailEnv 1767233100000000000 },
       { check := okEnv 1767233101000000000, commandParts := [],
         cmd := okEnv 1767233101000000000 }]
      (armedState 1767233100000000000)).1.calls = [Event.fetch] ∧
    offCommandCount (runLoop "op"
      [{ check := fetchFailEnv 1767233100000000000, commandParts := [],
         cmd := fetchFailEnv 1767233100000000000 },
       { check := okEnv 1767233101000000000, commandParts := [],
         cmd := okEnv 1767233101000000000 }]
      (armedState 1767233100000000000)).1.calls = 0 ∧
    (runLoop "op"
      [{ check := fetchFailEnv 1767233100000000000, commandParts := [],
         cmd := fetchFailEnv 1767233100000000000 },
       { check := okEnv 1767233101000000000, commandParts := [],
         cmd := okEnv 1767233101000000000 }]
      (armedState 1767233100000000000)).1.timer.timerActive = false := by
  decide

/-- C11 (amended): for an armed action that is due, the expiry check fetches
the snapshot again, submits the off-command once when that fetch succeeds
and not at all when it fails, and clears the timer in every case. A second
check changes nothing, and in the later iterations the loop behaves as the
loop without the timer block as long as no command arms the timer again, so
the action is not fired a second time. -/
theorem due_action_fires_at_most_once (studentName : String) (e : Env) (s : State)
    (cs : List Cycle)
    (ha : s.timer.timerActive = true) (hd : s.timer.timerEndTime ≤ e.now)
    (hcs : ∀ c ∈ cs, (isArmingCommand c.commandParts && succeeds c.cmd) = false) :
    (expiryCheck studentName e s).timer.timerActive = false ∧
    (expiryCheck studentName e s).calls =
      s.calls ++ Event.fetch ::
        (match e.fetch with
          | none => []
          | some d => [Event.submit { d with
              CommandKey := "AirClose"
              DeviceFan := d.DeviceFan.map (fun fan => { fan with FanStatus := 0 })
              StudentName := studentName }]) ∧
    offCommandCount (expiryCheck studentName e s).calls =
      offCommandCount s.calls + (if e.fetch.isSome then 1 else 0) ∧
    (∀ e2 : Env, expiryCheck studentName e2 (expiryCheck studentName e s) =
      expiryCheck studentName e s) ∧
    runLoop studentName cs (expiryCheck studentName e s) =
      runCommands studentName cs (expiryCheck studentName e s) := by
  have hr : timeSub s.timer.timerEndTime e.now ≤ 0 := (timeSub_nonpos_iff _ _).2 hd
  have hoff : (expiryCheck studentName e s).timer.timerActive = false := by
    simp [expiryCheck, ha, hr]
  have hcalls : (expiryCheck studentName e s).calls =
      s.calls ++ Event.fetch ::
        (match e.fetch with
          | none => []
          | some d => [Event.submit { d with
              CommandKey := "AirClose"
              DeviceFan := d.DeviceFan.map (fun fan => { fan with FanStatus := 0 })
              StudentName := studentName }]) := by
    cases hf : e.fetch with
    | none => simp [expiryCheck, ha, hr, getDeviceInfo, hf]
    | some d =>
      simp [expiryCheck, ha, hr, getDeviceInfo, hf, submitAction, operateDevice,
        mutateSnapshot_acoff]
  refine ⟨hoff, hcalls, ?_, ?_, ?_⟩
  · rw [hcalls, offCommandCount_append]
    cases hf : e.fetch with
    | none => simp [offCommandCount]
    | some d => simp [offCommandCount]
  · intro e2
    exact expiryCheck_inactive studentName e2 _ hoff
  · exact runLoop_inactive studentName cs _ hoff hcs

theorem due_action_fires_at_most_once_witness :
    offCommandCount (expiryCheck "op" (okEnv 1767233100000000000)
      (armedState 1767233100000000000)).calls =
        offCommandCount (armedState 1767233100000000000).calls +
          (if (okEnv 1767233100000000000).fetch.isSome then 1 else 0) ∧
    runLoop "op"
      [{ check := okEnv 1767233101000000000, commandParts := ["/status"],
         cmd := okEnv 1767233101000000000 }]
      (expiryCheck "op" (okEnv 1767233100000000000) (armedState 1767233100000000000)) =
    runCommands "op"
      [{ check := okEnv 1767233101000000000, commandParts := ["/status"],
         cmd := okEnv 1767233101000000000 }]
      (expiryCheck "op" (okEnv 1767233100000000000) (armedState 1767233100000000000)) :=
  ⟨(due_action_fires_at_most_once "op" (okEnv 1767233100000000000)
      (armedState 1767233100000000000)
      [{ check := okEnv 1767233101000000000, commandParts := ["/status"],
         cmd := okEnv 1767233101000000000 }]
      rfl (by decide) (by decide)).2.2.1,
   (due_action_fires_at_most_once "op" (okEnv 1767233100000000000)
      (armedState 1767233100000000000)
      [{ check := okEnv 1767233101000000000, commandParts := ["/status"],
         cmd := okEnv 1767233101000000000 }]
      rfl (by decide) (by decide)).2.2.2.2⟩

/-! ## The snapshot mutation of `operateDevice` -/

/-- C12: for the action "acon" or "start", `operateDevice` sets the command
marker to "AirOpen", the operator name to the given name, and the power flag
of the fan record to 1 when the record is present; for "acoff" or "stop" it
sets "AirClose", the name, and the flag to 0. In both cases an absent fan
record stays absent, every other field of the fan record and of the snapshot
keeps its value, the mutated snapshot is what is submitted, and the call
fails only if the request does. For any other action it returns an error,
sends nothing and leaves the snapshot as it was. -/
theorem operateDevice_mutation (d : DeviceInfo) (action studentName : String)
    (postOk : Bool) :
    ((action = "acon" ∨ action = "start") →
      (operateDevice d action studentName postOk).deviceInfo.CommandKey = "AirOpen" ∧
      (operateDevice d action studentName postOk).deviceInfo.StudentName = studentName ∧
      (∀ fan, d.DeviceFan = some fan →
        (operateDevice d action studentName postOk).deviceInfo.DeviceFan =
          some { fan with FanStatus := 1 }) ∧
      (d.DeviceFan = none →
        (operateDevice d action studentName postOk).deviceInfo.DeviceFan = none) ∧
      { (operateDevice d action studentName postOk).deviceInfo with
          CommandKey := d.CommandKey
          DeviceFan := d.DeviceFan
          StudentName := d.StudentName } = d ∧
      (operateDevice d action studentName postOk).calls =
        [Event.submit (operateDevice d action studentName postOk).deviceInfo] ∧
      (operateDevice d action studentName postOk).ok = postOk) ∧
    ((action = "acoff" ∨ action = "stop") →
      (operateDevice d action studentName postOk).deviceInfo.CommandKey = "AirClose" ∧
      (operateDevice d action studentName postOk).deviceInfo.StudentName = studentName ∧
      (∀ fan, d.DeviceFan = some fan →
        (operateDevice d action studentName postOk).deviceInfo.DeviceFan =
          some { fan with FanStatus := 0 }) ∧
      (d.DeviceFan = none →
        (operateDevice d action studentName postOk).deviceInfo.DeviceFan = none) ∧
      { (operateDevice d action studentName postOk).deviceInfo with
          CommandKey := d.CommandKey
          DeviceFan := d.DeviceFan
          StudentName := d.StudentName } = d ∧
      (operateDevice d action studentName postOk).calls =
        [Event.submit (operateDevice d action studentName postOk).deviceInfo] ∧
      (operateDevice d action studentName postOk).ok = postOk) ∧
    ((action ≠ "acon" ∧ action ≠ "start" ∧ action ≠ "acoff" ∧ action ≠ "stop") →
      (operateDevice d action studentName postOk).deviceInfo = d ∧
      (operateDevice d action studentName postOk).calls = [] ∧
      (operateDevice d action studentName postOk).ok = false) := by
  refine ⟨?_, ?_, ?_⟩
  · intro h
    have hm : mutateSnapshot d action studentName =
        some { d with
          CommandKey := "AirOpen"
          DeviceFan := d.DeviceFan.map (fun fan => { fan with FanStatus := 1 })
          StudentName := studentName } := by
      rcases h with h | h <;> subst h <;> simp [mutateSnapshot]
    refine ⟨?_, ?_, ?_, ?_, ?_, ?_, ?_⟩
    · simp [operateDevice, hm]
    · simp [operateDevice, hm]
    · intro fan hfan
      simp [operateDevice, hm, hfan]
    · intro hnone
      simp [operateDevice, hm, hnone]
    · simp [operateDevice, hm]
    · simp [operateDevice, hm]
    · simp [operateDevice, hm]
  · intro h
    have hm : mutateSnapshot d action studentName =
        some { d with
          CommandKey := "AirClose"
          DeviceFan := d.DeviceFan.map (fun fan => { fan with FanStatus := 0 })
          StudentName := studentName } := by
      rcases h with h | h <;> subst h <;> simp [mutateSnapshot]
    refine ⟨?_, ?_, ?_, ?_, ?_, ?_, ?_⟩
    · simp [operateDevice, hm]
    · simp [operateDevice, hm]
    · intro fan hfan
      simp [operateDevice, hm, hfan]
    · intro hnone
      simp [operateDevice, hm, hnone]
    · simp [operateDevice, hm]
    · simp [operateDevice, hm]
    · simp [operateDevice, hm]
  · rintro ⟨h1, h2, h3, h4⟩
    have hm : mutateSnapshot d action studentName = none := by
      simp [mutateSnapshot, h1, h2, h3, h4]
    simp [operateDevice, hm]

theorem operateDevice_mutation_witness :
    (operateDevice sampleDevice "acon" "op" true).deviceInfo.CommandKey = "AirOpen" ∧
    (operateDevice { sampleDevice with DeviceFan := none } "stop" "op" true).deviceInfo.DeviceFan
      = none ∧
    (operateDevice sampleDevice "toggle" "op" true).deviceInfo = sampleDevice :=
  ⟨((operateDevice_mutation sampleDevice "acon" "op" true).1 (Or.inl rfl)).1,
   ((operateDevice_mutation { sampleDevice with DeviceFan := none } "stop" "op" true).2.1
      (Or.inr rfl)).2.2.2.1 rfl,
   ((operateDevice_mutation sampleDevice "toggle" "op" true).2.2
      ⟨by decide, by decide, by decide, by decide⟩).1⟩

/-! ## The timer status line -/

/-- The first two cases of the timer status of `printDeviceInfo`: a timer
that is not active is reported as not enabled, and an active timer with
`timerEndTime - now <= 0` as expired. -/
theorem printDeviceInfo_inactive_expired (timer : TimerVars) (now : Int) :
    (timer.timerActive = false → printDeviceInfo timer now = TimerStatus.inactive) ∧
    (timer.timerActive = true → timer.timerEndTime - now ≤ 0 →
      printDeviceInfo timer now = TimerStatus.expired) := by
  constructor
  · intro h
    simp [printDeviceInfo, h]
  · intro h hd
    have hr : timeSub timer.timerEndTime now ≤ 0 :=
      (timeSub_nonpos_iff _ _).2 (by omega)
    simp [printDeviceInfo, h, hr]

theorem floatAdd_nonneg (a b : Int) (ha : 0 ≤ a) (hb : 0 ≤ b) : 0 ≤ floatAdd a b := by
  unfold floatAdd
  have hs : 0 ≤ Int.sign (a + b) := Int.sign_nonneg.2 (by omega)
  exact Int.mul_nonneg hs (Int.ofNat_nonneg _)

theorem floatOfInt_nonneg (x : Int) (hx : 0 ≤ x) : 0 ≤ floatOfInt x := by
  unfold floatOfInt
  exact Int.mul_nonneg (Int.sign_nonneg.2 hx) (Int.ofNat_nonneg _)

theorem floatDiv_nonneg (a b : Int) (ha : 0 ≤ a) (hb : 0 ≤ b) : 0 ≤ floatDiv a b := by
  unfold floatDiv
  exact Int.mul_nonneg (Int.mul_nonneg (Int.sign_nonneg.2 ha) (Int.sign_nonneg.2 hb))
    (Int.ofNat_nonneg _)

theorem floatToInt_nonneg (a : Int) (ha : 0 ≤ a) : 0 ≤ floatToInt a := by
  unfold floatToInt
  exact Int.tdiv_nonneg ha (Int.ofNat_nonneg _)

/-- While the timer runs, the minutes and seconds of the status line are
between 0 and 59. -/
theorem printDeviceInfo_minutes_seconds_range (timer : TimerVars) (now : Int)
    (ha : timer.timerActive = true) (hd : now < timer.timerEndTime) :
    ∃ h m sec : Int,
      printDeviceInfo timer now =
        TimerStatus.running timer.timerDescription h m sec timer.timerEndTime ∧
      0 ≤ m ∧ m < 60 ∧ 0 ≤ sec ∧ sec < 60 := by
  have hr : ¬ timeSub timer.timerEndTime now ≤ 0 := by
    rw [timeSub_nonpos_iff]; omega
  have hpos : 0 ≤ timeSub timer.timerEndTime now := by omega
  have hM : (0 : Int) ≤ Minute := by decide
  have hS : (0 : Int) ≤ Second := by decide
  have hm : 0 ≤ floatToInt (Duration.Minutes (timeSub timer.timerEndTime now)) :=
    floatToInt_nonneg _ (floatAdd_nonneg _ _
      (floatOfInt_nonneg _ (Int.tdiv_nonneg hpos hM))
      (floatDiv_nonneg _ _ (floatOfInt_nonneg _ (Int.tmod_nonneg _ hpos))
        (floatOfInt_nonneg _ (by decide))))
  have hs : 0 ≤ floatToInt (Duration.Seconds (timeSub timer.timerEndTime now)) :=
    floatToInt_nonneg _ (floatAdd_nonneg _ _
      (floatOfInt_nonneg _ (Int.tdiv_nonneg hpos hS))
      (floatDiv_nonneg _ _ (floatOfInt_nonneg _ (Int.tmod_nonneg _ hpos))
        (floatOfInt_nonneg _ (by decide))))
  refine ⟨floatToInt (Duration.Hours (timeSub timer.timerEndTime now)),
    Int.tmod (floatToInt (Duration.Minutes (timeSub timer.timerEndTime now))) 60,
    Int.tmod (floatToInt (Duration.Seconds (timeSub timer.timerEndTime now))) 60,
    ?_, Int.tmod_nonneg _ hm, Int.tmod_lt_of_pos _ (by decide),
    Int.tmod_nonneg _ hs, Int.tmod_lt_of_pos _ (by decide)⟩
  simp [printDeviceInfo, ha, hr]

set_option maxRecDepth 8000 in
/-- C13: the hours, minutes and seconds of the status line are taken from
the `float64` values `Hours()`, `Minutes()` and `Seconds()`, and the sum that
forms each of them rounds up to the next whole unit for long durations.
After `/acon 245821` at 10:00:00, the status at 10:01:00.000000001 has 4097 h
less one nanosecond left, 14749199 whole seconds (also by `Seconds()`), that
is 4096 h 59 min 59 s, and it shows 4097, 59 and 59: one hour too many.
After `/acon 279621` at 10:00:00, the status 43.000000001 s later has
16777216.999999999 s left, 4660 h 20 min 16 s in whole seconds, and it shows
4660, 20 and 17. -/
theorem printDeviceInfo_rounds_up :
    Atoi "245821" = some 245821 ∧
    timeSub (dispatch "op" (okEnv 1767232800000000000) ["/acon", "245821"]
      initialState).1.timer.timerEndTime (1767232800000000000 + 60000000001)
      = 4097 * Hour - 1 ∧
    Int.tdiv (4097 * Hour - 1) Second = 14749199 ∧
    floatToInt (Duration.Seconds (4097 * Hour - 1)) = 14749199 ∧
    (4096 : Int) * 3600 + 59 * 60 + 59 = 14749199 ∧
    printDeviceInfo (dispatch "op" (okEnv 1767232800000000000) ["/acon", "245821"]
      initialState).1.timer (1767232800000000000 + 60000000001) =
      TimerStatus.running "245821分鐘" 4097 59 59 (1767232800000000000 + 245821 * Minute) ∧
    (4097 : Int) * 3600 + 59 * 60 + 59 ≠ 14749199 ∧
    Atoi "279621" = some 279621 ∧
    timeSub (dispatch "op" (okEnv 1767232800000000000) ["/acon", "279621"]
      initialState).1.timer.timerEndTime (1767232800000000000 + 43000000001)
      = 16777216999999999 ∧
    Int.tdiv 16777216999999999 Second = 16777216 ∧
    printDeviceInfo (dispatch "op" (okEnv 1767232800000000000) ["/acon", "279621"]
      initialState).1.timer (1767232800000000000 + 43000000001) =
      TimerStatus.running "279621分鐘" 4660 20 17 (1767232800000000000 + 279621 * Minute) ∧
    (4660 : Int) * 3600 + 20 * 60 + 17 ≠ 16777216 := by
  decide

set_option maxRecDepth 8000 in
/-- A short duration is shown exactly: with 5 minutes less one nanosecond
left the status line shows 0, 4 and 59. -/
theorem printDeviceInfo_five_minutes_scenario :
    printDeviceInfo (dispatch "op" (okEnv 1767232800000000000) ["/acon", "5"]
      initialState).1.timer (1767232800000000000 + 1) =
      TimerStatus.running "5分鐘" 0 4 59 (1767232800000000000 + 5 * Minute) := by
  decide

end Actool
